import Mathlib

/-!
Verification development for the djd-agent-score TypeScript SDK.

The definitions below are a shallow embedding of `src/client.ts` and
`src/errors.ts`: the request engine (`_request`, `_requestText`), the
error constructors (`NetworkError`, `PaymentRequiredError`) and the
gating helpers (`shouldTransact`, `gateTransaction`).  Network
behaviour is abstracted as a function from attempt index to the
observable outcome of that attempt's `fetch` call; wall-clock effects
(backoff sleeps) are recorded as data in the result trace.
-/

namespace AgentScore

/-- Minimal model of a structured JavaScript value as produced by
`res.json()`.  Numbers are modelled as integers; no claim depends on
fractional values. -/
inductive JValue where
  | null
  | bool (b : Bool)
  | num (n : Int)
  | str (s : String)
  | arr (elems : List JValue)
  | obj (fields : List (String × JValue))

/-- JavaScript property access `v[key]` as used on parsed JSON: a lookup
on an object, `undefined` (modelled as `none`) on every non-object value. -/
def jsGetField : JValue → String → Option JValue
  | .obj fields, key => (fields.find? (fun f => f.fst == key)).map (fun f => f.snd)
  | _, _ => none

/-- Char-list version of "pat occurs at the start of l". -/
def leadMatch : List Char → List Char → Bool
  | [], _ => true
  | _ :: _, [] => false
  | p :: ps, c :: cs => p == c && leadMatch ps cs

/-- Char-list version of "pat occurs somewhere in l". -/
def occursIn (pat : List Char) : List Char → Bool
  | [] => pat.isEmpty
  | c :: rest => leadMatch pat (c :: rest) || occursIn pat rest

/-- JavaScript `msg.includes(pat)`: substring containment. -/
def jsIncludes (s pat : String) : Bool :=
  occursIn pat.data s.data

/-- JavaScript `text || fallback` on strings: the empty string is the
only falsy string.  Models `text || res.statusText`. -/
def jsOrElse (text fallback : String) : String :=
  if text = "" then fallback else text

/-- Whether a JSON value is the `null` literal. -/
def JValue.isNull : JValue → Bool
  | .null => true
  | _ => false

/-- JavaScript string coercion of a value inside a template literal.
Array elements are joined by commas with a `null` element rendering as
the empty string, as `Array.prototype.toString` does. -/
def jsTemplate : JValue → String
  | .null => "null"
  | .bool true => "true"
  | .bool false => "false"
  | .num n => toString n
  | .str s => s
  | .arr elems =>
    String.intercalate "," (elems.attach.map (fun e => if e.1.isNull then "" else jsTemplate e.1))
  | .obj _ => "[object Object]"
decreasing_by
  have h := List.sizeOf_lt_of_mem e.2
  simp only [JValue.arr.sizeOf_spec]
  omega

/-- Models `accepts[0]?.<key> ?? "unknown"` (errors.ts lines 49-50):
an absent first element, an absent field, and a `null` field value all
fall back to `"unknown"`; any other field value is rendered by the
template literal. -/
def jsFieldOrUnknown (accepts : List JValue) (key : String) : String :=
  match accepts.head? with
  | none => "unknown"
  | some first =>
    match jsGetField first key with
    | none => "unknown"
    | some .null => "unknown"
    | some v => jsTemplate v

/-- Model of `NetworkError` (errors.ts lines 15-23): a message plus an
optional HTTP status code. -/
structure NetworkError where
  message : String
  statusCode : Option Nat

/-- Model of `PaymentRequiredError` (errors.ts lines 43-56). -/
structure PaymentRequiredError where
  message : String
  statusCode : Nat
  accepts : List JValue
  rawBody : JValue

/-- Model of the `PaymentRequiredError` constructor (errors.ts lines
48-55): derives the message from the first payment option and stores
the `accepts` list and raw body unchanged; the status code is the
constant 402. -/
def mkPaymentRequiredError (accepts : List JValue) (rawBody : JValue) : PaymentRequiredError :=
  { message := "Payment required: " ++ jsFieldOrUnknown accepts "maxAmountRequired"
                 ++ " " ++ jsFieldOrUnknown accepts "asset",
    statusCode := 402,
    accepts := accepts,
    rawBody := rawBody }

def DEFAULT_BASE_URL : String := "https://djd-agent-score.fly.dev"

def DEFAULT_TIMEOUT_MS : Nat := 10000

def DEFAULT_MAX_RETRIES : Int := 3

def INITIAL_BACKOFF_MS : Nat := 1000

/-- Models `baseUrl.replace` with the trailing-slash pattern (client
line 52): strip every trailing slash character. -/
def stripTrailingSlashes (s : String) : String :=
  String.mk ((s.data.reverse.dropWhile (fun c => c == '/')).reverse)

/-- Model of `AgentScoreClientOptions` (types.ts): all fields optional. -/
structure AgentScoreClientOptions where
  baseUrl : Option String := none
  timeoutMs : Option Nat := none
  maxRetries : Option Int := none

/-- The client's immutable configuration (client lines 47-49). -/
structure AgentScoreClient where
  baseUrl : String
  timeoutMs : Nat
  maxRetries : Int

/-- Model of the `AgentScoreClient` constructor (client lines 51-55). -/
def AgentScoreClient.ofOptions (options : AgentScoreClientOptions) : AgentScoreClient :=
  { baseUrl := stripTrailingSlashes (options.baseUrl.getD DEFAULT_BASE_URL),
    timeoutMs := options.timeoutMs.getD DEFAULT_TIMEOUT_MS,
    maxRetries := options.maxRetries.getD DEFAULT_MAX_RETRIES }

/-- What the engine observes of a `Response`: status, statusText, and
the results of reading the body as JSON (`res.json()`) or as text
(`res.text()`), where `none` models a rejected body read. -/
structure ResponseModel where
  status : Nat
  statusText : String
  jsonBody : Option JValue
  textBody : Option String

/-- The observable result of one `fetch` call: either the promise
rejects before a response is received (`transport`, carrying the thrown
value's message when it was an `Error` and `none` for a non-`Error`
throw), or a response arrives. -/
inductive FetchOutcome where
  | transport (errMessage : Option String)
  | response (res : ResponseModel)

/-- A terminal outcome of the retry loop: a 2xx/3xx response handed to
the variant-specific body decoder, a thrown `PaymentRequiredError`, or
a thrown `NetworkError`. -/
inductive Terminal where
  | ok (res : ResponseModel)
  | payment (e : PaymentRequiredError)
  | network (e : NetworkError)

/-- Models `Array.isArray(raw.accepts) ? raw.accepts : []` (client line 106). -/
def extractAccepts (raw : JValue) : List JValue :=
  match jsGetField raw "accepts" with
  | some (.arr elems) => elems
  | _ => []

/-- The retryable-error message for a transport failure (client lines
86-98 and 156-168): a message containing "abort" is the per-attempt
timeout, anything else is a generic network error. -/
def transportError (c : AgentScoreClient) (method path : String) (errMessage : Option String) : NetworkError :=
  let msg := errMessage.getD "Unknown network error"
  { message :=
      if jsIncludes msg "abort" then
        "Request timed out after " ++ toString c.timeoutMs ++ "ms: " ++ method ++ " " ++ path
      else
        "Network error: " ++ msg,
    statusCode := none }

/-- One iteration body of `_request`'s loop (client lines 73-130), minus
the success-body decode: classify the attempt's fetch outcome as a
terminal outcome (`Sum.inl`) or as a retryable error to record
(`Sum.inr`). -/
def classifyRequest (c : AgentScoreClient) (method path : String) (o : FetchOutcome) : Sum Terminal NetworkError :=
  match o with
  | .transport errMessage => Sum.inr (transportError c method path errMessage)
  | .response res =>
    if res.status = 402 then
      let raw := res.jsonBody.getD (JValue.obj [])
      Sum.inl (.payment (mkPaymentRequiredError (extractAccepts raw) raw))
    else if res.status ≥ 500 then
      let text := res.textBody.getD ""
      Sum.inr { message := "Server error " ++ toString res.status ++ ": " ++ jsOrElse text res.statusText, statusCode := some res.status }
    else if res.status ≥ 400 then
      let text := res.textBody.getD ""
      Sum.inl (.network { message := "HTTP " ++ toString res.status ++ ": " ++ jsOrElse text res.statusText, statusCode := some res.status })
    else
      Sum.inl (.ok res)

/-- One iteration body of `_requestText`'s loop (client lines 150-187):
identical to `classifyRequest` except that there is no 402 branch, so a
402 response falls into the generic `status >= 400` client-error case. -/
def classifyText (c : AgentScoreClient) (method path : String) (o : FetchOutcome) : Sum Terminal NetworkError :=
  match o with
  | .transport errMessage => Sum.inr (transportError c method path errMessage)
  | .response res =>
    if res.status ≥ 500 then
      let text := res.textBody.getD ""
      Sum.inr { message := "Server error " ++ toString res.status ++ ": " ++ jsOrElse text res.statusText, statusCode := some res.status }
    else if res.status ≥ 400 then
      let text := res.textBody.getD ""
      Sum.inl (.network { message := "HTTP " ++ toString res.status ++ ": " ++ jsOrElse text res.statusText, statusCode := some res.status })
    else
      Sum.inl (.ok res)

/-- Trace of one engine invocation: terminal outcome, number of fetch
attempts performed, and the backoff delays slept, in milliseconds and
in order. -/
structure LoopResult where
  outcome : Terminal
  attempts : Nat
  sleeps : List Nat

/-- The retry loop shared by `_request` and `_requestText` (client lines
67-133 and 144-190), parameterised by the per-attempt classification
`cls`.  `attempt` is the loop counter; `remaining` is how many
iterations the loop guard still allows; the third argument is the
recorded `lastError`.  On exhaustion the last recorded error is thrown,
or the generic one when none was recorded (client lines 133 and 190). -/
def runLoop (cls : Nat → Sum Terminal NetworkError) : Nat → Nat → Option NetworkError → LoopResult
  | _, 0, lastError =>
    { outcome := .network (lastError.getD { message := "Request failed after retries", statusCode := none }),
      attempts := 0,
      sleeps := [] }
  | attempt, remaining + 1, _ =>
    let backoffs := if attempt = 0 then [] else [INITIAL_BACKOFF_MS * 2 ^ (attempt - 1)]
    match cls attempt with
    | Sum.inl t => { outcome := t, attempts := 1, sleeps := backoffs }
    | Sum.inr e =>
      let rest := runLoop cls (attempt + 1) remaining (some e)
      { outcome := rest.outcome, attempts := rest.attempts + 1, sleeps := backoffs ++ rest.sleeps }

/-- Models the loop header `for (attempt = 0; attempt <= maxRetries; attempt++)`:
the number of iterations the guard allows, zero when `maxRetries` is
negative. -/
def attemptBudget (maxRetries : Int) : Nat :=
  if maxRetries < 0 then 0 else maxRetries.toNat + 1

/-- Outcome of one `_request` invocation as observed by the caller. -/
inductive RequestOutcome where
  | success (payload : JValue)
  | jsonFailure
  | payment (e : PaymentRequiredError)
  | network (e : NetworkError)

/-- Full trace of one `_request` invocation. -/
structure RequestRun where
  outcome : RequestOutcome
  url : String
  attempts : Nat
  sleeps : List Nat

/-- Model of `_request` (client lines 59-134): build the URL, run the
retry loop with the full classification, then decode a success response
with `res.json()` — a rejected success-body parse is not caught and
surfaces as `jsonFailure`.  The request body affects only the bytes
sent on the wire, never the classification. -/
def _request (c : AgentScoreClient) (method path : String) (_body : Option JValue) (fetches : Nat → FetchOutcome) : RequestRun :=
  let r := runLoop (fun attempt => classifyRequest c method path (fetches attempt)) 0 (attemptBudget c.maxRetries) none
  { outcome :=
      match r.outcome with
      | .ok res =>
        match res.jsonBody with
        | some payload => .success payload
        | none => .jsonFailure
      | .payment e => .payment e
      | .network e => .network e,
    url := c.baseUrl ++ path,
    attempts := r.attempts,
    sleeps := r.sleeps }

/-- Outcome of one `_requestText` invocation as observed by the caller. -/
inductive RequestTextOutcome where
  | success (bodyText : String)
  | textFailure
  | payment (e : PaymentRequiredError)
  | network (e : NetworkError)

/-- Full trace of one `_requestText` invocation. -/
structure RequestTextRun where
  outcome : RequestTextOutcome
  url : String
  attempts : Nat
  sleeps : List Nat

/-- Model of `_requestText` (client lines 137-191): the same loop with
the text classification, decoding a success response with `res.text()`. -/
def _requestText (c : AgentScoreClient) (method path : String) (fetches : Nat → FetchOutcome) : RequestTextRun :=
  let r := runLoop (fun attempt => classifyText c method path (fetches attempt)) 0 (attemptBudget c.maxRetries) none
  { outcome :=
      match r.outcome with
      | .ok res =>
        match res.textBody with
        | some bodyText => .success bodyText
        | none => .textFailure
      | .payment e => .payment e
      | .network e => .network e,
    url := c.baseUrl ++ path,
    attempts := r.attempts,
    sleeps := r.sleeps }

/-- Model of `BasicScoreResponse` (types.ts). -/
structure BasicScoreResponse where
  wallet : String
  score : Int
  tier : String
  confidence : Int
  recommendation : String
  modelVersion : String
  lastUpdated : String
  computedAt : String
  scoreFreshness : Int
  freeTier : Bool
  freeQueriesRemainingToday : Int
  stale : Bool

/-- Decision step of `shouldTransact` (client lines 301-304) on the
fetched payload. -/
def shouldTransact (data : BasicScoreResponse) : Bool :=
  data.recommendation == "proceed"

/-- Runtime value of the `reason` binding in `gateTransaction`: either
one of the declared `GateReason` strings, or — when the recommendation
string collides with an `Object.prototype` member name — the inherited
non-string member that the object lookup returns (a function, or
`Object.prototype` itself for `__proto__`). -/
inductive GateReasonValue where
  | str (s : String)
  | inheritedFn (name : String)
deriving DecidableEq

/-- JavaScript strict equality (`===`) between the runtime `reason`
value and a string literal: true only for the very same string; an
inherited non-string member is never equal to a string. -/
def GateReasonValue.strictEqStr : GateReasonValue → String → Bool
  | .str s, t => s == t
  | .inheritedFn _, _ => false

/-- The own property names of `Object.prototype` in a standard
JavaScript runtime: property reads of these names on a plain object
literal return the inherited member, which is neither `undefined` nor
`null`. -/
def OBJECT_PROTOTYPE_KEYS : List String :=
  ["constructor", "hasOwnProperty", "isPrototypeOf", "propertyIsEnumerable",
   "toLocaleString", "toString", "valueOf",
   "__defineGetter__", "__defineSetter__", "__lookupGetter__", "__lookupSetter__", "__proto__"]

/-- JavaScript property read `record[key]` on a plain object literal
with string values: an own key yields its string value; a key inherited
from `Object.prototype` yields the inherited non-string member; any
other key is `undefined` (`none`). -/
def jsRecordGet (own : List (String × String)) (key : String) : Option GateReasonValue :=
  match own.find? (fun p => p.fst == key) with
  | some p => some (GateReasonValue.str p.snd)
  | none =>
    if OBJECT_PROTOTYPE_KEYS.contains key then some (GateReasonValue.inheritedFn key) else none

/-- Model of `GateResult` (types.ts); the declared type of `reason` is
`GateReason`, but the runtime value can also be an inherited
`Object.prototype` member (see `GateReasonValue`). -/
structure GateResult where
  approved : Bool
  reason : GateReasonValue
  score : Int
  recommendation : String
  wallet : String

/-- The `KNOWN_REASONS` record literal (client lines 314-319). -/
def KNOWN_REASONS : List (String × String) :=
  [("proceed", "proceed"),
   ("proceed_with_caution", "proceed_with_caution"),
   ("deny", "blocked"),
   ("block", "blocked")]

/-- Decision step of `gateTransaction` (client lines 311-331) on the
fetched payload: read `KNOWN_REASONS[recommendation]` as a JavaScript
object-literal lookup (which walks the prototype chain), apply the
nullish-coalescing `unknown_recommendation` fallback only when the read
is `undefined`, and approve exactly the two proceed reasons. -/
def gateTransaction (data : BasicScoreResponse) : GateResult :=
  let reason : GateReasonValue :=
    (jsRecordGet KNOWN_REASONS data.recommendation).getD (GateReasonValue.str "unknown_recommendation")
  { approved := reason.strictEqStr "proceed" || reason.strictEqStr "proceed_with_caution",
    reason := reason,
    score := data.score,
    recommendation := data.recommendation,
    wallet := data.wallet }

/-! ## Concrete fixtures used in closed evaluations -/

/-- Example x402 payment option, as an entry of a parsed `accepts` array. -/
def acceptEx : JValue :=
  JValue.obj [("maxAmountRequired", JValue.str "1000"), ("asset", JValue.str "USDC")]

/-- Example parsed 402 body carrying one payment option. -/
def rawBodyEx : JValue := JValue.obj [("accepts", JValue.arr [acceptEx])]

/-- Example 402 response. -/
def res402Ex : ResponseModel :=
  { status := 402, statusText := "Payment Required",
    jsonBody := some rawBodyEx, textBody := some "payment required" }

/-- Example 503 response. -/
def res503Ex : ResponseModel :=
  { status := 503, statusText := "Service Unavailable",
    jsonBody := none, textBody := some "upstream down" }

/-- Example client with the default configuration values. -/
def clientEx : AgentScoreClient :=
  { baseUrl := "https://djd-agent-score.fly.dev", timeoutMs := 10000, maxRetries := 3 }

/-- Example client with a negative retry limit. -/
def clientNegEx : AgentScoreClient :=
  { baseUrl := "https://djd-agent-score.fly.dev", timeoutMs := 10000, maxRetries := -1 }

/-- Example basic-score payload with the given recommendation string. -/
def scoreEx (recommendation : String) : BasicScoreResponse :=
  { wallet := "0xef4364fe4487353df46eb7c811d4fac78b856c7f", score := 80, tier := "gold",
    confidence := 1, recommendation := recommendation, modelVersion := "1",
    lastUpdated := "2026-01-01", computedAt := "2026-01-01", scoreFreshness := 0,
    freeTier := true, freeQueriesRemainingToday := 9, stale := false }

/-! ## Classification lemmas -/

/-- Both classifiers record the same transport error for a fetch rejection. -/
lemma classify_transport (c : AgentScoreClient) (method path : String) (errMessage : Option String) :
    classifyRequest c method path (FetchOutcome.transport errMessage) =
        Sum.inr (transportError c method path errMessage) ∧
    classifyText c method path (FetchOutcome.transport errMessage) =
        Sum.inr (transportError c method path errMessage) :=
  ⟨rfl, rfl⟩

/-- Classification by `_request` of a 402 response: terminal payment error. -/
lemma classifyRequest_402 (c : AgentScoreClient) (method path : String) (res : ResponseModel)
    (h : res.status = 402) :
    classifyRequest c method path (FetchOutcome.response res) =
      Sum.inl (Terminal.payment
        (mkPaymentRequiredError (extractAccepts (res.jsonBody.getD (JValue.obj [])))
          (res.jsonBody.getD (JValue.obj [])))) := by
  simp [classifyRequest, h]

/-- Classification by `_request` of a 5xx response: retryable server error. -/
lemma classifyRequest_5xx (c : AgentScoreClient) (method path : String) (res : ResponseModel)
    (h402 : res.status ≠ 402) (h500 : 500 ≤ res.status) :
    classifyRequest c method path (FetchOutcome.response res) =
      Sum.inr { message := "Server error " ++ toString res.status ++ ": "
                  ++ jsOrElse (res.textBody.getD "") res.statusText,
                statusCode := some res.status } := by
  simp [classifyRequest, h402, h500]

/-- Classification by `_requestText` of a 5xx response: retryable server error. -/
lemma classifyText_5xx (c : AgentScoreClient) (method path : String) (res : ResponseModel)
    (h500 : 500 ≤ res.status) :
    classifyText c method path (FetchOutcome.response res) =
      Sum.inr { message := "Server error " ++ toString res.status ++ ": "
                  ++ jsOrElse (res.textBody.getD "") res.statusText,
                statusCode := some res.status } := by
  simp [classifyText, h500]

/-- Classification by `_requestText` of any 4xx response, 402 included:
terminal client error with the status code. -/
lemma classifyText_4xx (c : AgentScoreClient) (method path : String) (res : ResponseModel)
    (h500 : res.status < 500) (h400 : 400 ≤ res.status) :
    classifyText c method path (FetchOutcome.response res) =
      Sum.inl (Terminal.network
        { message := "HTTP " ++ toString res.status ++ ": " ++ jsOrElse (res.textBody.getD "") res.statusText,
          statusCode := some res.status }) := by
  have h : ¬ 500 ≤ res.status := by omega
  simp [classifyText, h, h400]

/-! ## Loop lemmas -/

/-- Unfolding `_request`: its attempt count is the loop's. -/
lemma _request_attempts_def (c : AgentScoreClient) (method path : String) (body : Option JValue) (fetches : Nat → FetchOutcome) :
    (_request c method path body fetches).attempts =
      (runLoop (fun attempt => classifyRequest c method path (fetches attempt)) 0 (attemptBudget c.maxRetries) none).attempts := rfl

/-- Unfolding `_request`: its backoff trace is the loop's. -/
lemma _request_sleeps_def (c : AgentScoreClient) (method path : String) (body : Option JValue) (fetches : Nat → FetchOutcome) :
    (_request c method path body fetches).sleeps =
      (runLoop (fun attempt => classifyRequest c method path (fetches attempt)) 0 (attemptBudget c.maxRetries) none).sleeps := rfl

/-- Unfolding `_requestText`: its attempt count is the loop's. -/
lemma _requestText_attempts_def (c : AgentScoreClient) (method path : String) (fetches : Nat → FetchOutcome) :
    (_requestText c method path fetches).attempts =
      (runLoop (fun attempt => classifyText c method path (fetches attempt)) 0 (attemptBudget c.maxRetries) none).attempts := rfl

/-- Unfolding `_requestText`: its backoff trace is the loop's. -/
lemma _requestText_sleeps_def (c : AgentScoreClient) (method path : String) (fetches : Nat → FetchOutcome) :
    (_requestText c method path fetches).sleeps =
      (runLoop (fun attempt => classifyText c method path (fetches attempt)) 0 (attemptBudget c.maxRetries) none).sleeps := rfl

/-- A loop ending in a thrown `NetworkError` gives `_request` that error. -/
lemma _request_outcome_network (c : AgentScoreClient) (method path : String) (body : Option JValue) (fetches : Nat → FetchOutcome) (e : NetworkError)
    (h : (runLoop (fun attempt => classifyRequest c method path (fetches attempt)) 0 (attemptBudget c.maxRetries) none).outcome = Terminal.network e) :
    (_request c method path body fetches).outcome = RequestOutcome.network e := by
  simp [_request, h]

/-- A loop ending in a thrown `PaymentRequiredError` gives `_request` that error. -/
lemma _request_outcome_payment (c : AgentScoreClient) (method path : String) (body : Option JValue) (fetches : Nat → FetchOutcome) (e : PaymentRequiredError)
    (h : (runLoop (fun attempt => classifyRequest c method path (fetches attempt)) 0 (attemptBudget c.maxRetries) none).outcome = Terminal.payment e) :
    (_request c method path body fetches).outcome = RequestOutcome.payment e := by
  simp [_request, h]

/-- A loop ending in a thrown `NetworkError` gives `_requestText` that error. -/
lemma _requestText_outcome_network (c : AgentScoreClient) (method path : String) (fetches : Nat → FetchOutcome) (e : NetworkError)
    (h : (runLoop (fun attempt => classifyText c method path (fetches attempt)) 0 (attemptBudget c.maxRetries) none).outcome = Terminal.network e) :
    (_requestText c method path fetches).outcome = RequestTextOutcome.network e := by
  simp [_requestText, h]

/-- A non-negative `maxRetries = n` allows exactly `n + 1` loop iterations. -/
lemma attemptBudget_ofNat (n : Nat) : attemptBudget (n : Int) = n + 1 := by
  simp [attemptBudget]

/-- A negative `maxRetries` allows no loop iteration. -/
lemma attemptBudget_neg (m : Int) (h : m < 0) : attemptBudget m = 0 := by
  simp [attemptBudget, h]

/-- One-step unfolding of the loop when the current attempt is terminal. -/
lemma runLoop_succ_terminal (cls : Nat → Sum Terminal NetworkError) (attempt k : Nat) (le : Option NetworkError) (t : Terminal)
    (h : cls attempt = Sum.inl t) :
    runLoop cls attempt (k + 1) le =
      { outcome := t, attempts := 1,
        sleeps := if attempt = 0 then [] else [INITIAL_BACKOFF_MS * 2 ^ (attempt - 1)] } := by
  simp only [runLoop, h]

/-- One-step unfolding of the loop when the current attempt is retryable. -/
lemma runLoop_succ_retry (cls : Nat → Sum Terminal NetworkError) (attempt k : Nat) (le : Option NetworkError) (e : NetworkError)
    (h : cls attempt = Sum.inr e) :
    runLoop cls attempt (k + 1) le =
      { outcome := (runLoop cls (attempt + 1) k (some e)).outcome,
        attempts := (runLoop cls (attempt + 1) k (some e)).attempts + 1,
        sleeps := (if attempt = 0 then [] else [INITIAL_BACKOFF_MS * 2 ^ (attempt - 1)])
          ++ (runLoop cls (attempt + 1) k (some e)).sleeps } := by
  simp only [runLoop, h]

/-- If every attempt classifies as a retryable error satisfying `Q`, the
loop performs every allowed iteration and throws an error satisfying `Q`. -/
lemma runLoop_allRetry_pred (cls : Nat → Sum Terminal NetworkError) (Q : NetworkError → Prop)
    (h : ∀ i, ∃ e, cls i = Sum.inr e ∧ Q e) :
    ∀ (k attempt : Nat) (le : Option NetworkError),
      (runLoop cls attempt (k + 1) le).attempts = k + 1 ∧
      ∃ e, (runLoop cls attempt (k + 1) le).outcome = Terminal.network e ∧ Q e := by
  intro k
  induction k with
  | zero =>
    intro attempt le
    obtain ⟨e, he, hQ⟩ := h attempt
    rw [runLoop_succ_retry cls attempt 0 le e he]
    exact ⟨by simp [runLoop], e, by simp [runLoop], hQ⟩
  | succ k ih =>
    intro attempt le
    obtain ⟨e, he, hQ⟩ := h attempt
    obtain ⟨ha, e2, he2, hQ2⟩ := ih (attempt + 1) (some e)
    rw [runLoop_succ_retry cls attempt (k + 1) le e he]
    exact ⟨by simp [ha], e2, by simp [he2], hQ2⟩

/-- If every attempt classifies as the retryable error `err i`, the loop
throws exactly the error recorded for its last attempt. -/
lemma runLoop_allRetry_last (cls : Nat → Sum Terminal NetworkError) (err : Nat → NetworkError)
    (h : ∀ i, cls i = Sum.inr (err i)) :
    ∀ (k attempt : Nat) (le : Option NetworkError),
      (runLoop cls attempt (k + 1) le).outcome = Terminal.network (err (attempt + k)) := by
  intro k
  induction k with
  | zero =>
    intro attempt le
    rw [runLoop_succ_retry cls attempt 0 le (err attempt) (h attempt)]
    simp [runLoop]
  | succ k ih =>
    intro attempt le
    have h2 := ih (attempt + 1) (some (err attempt))
    have harith : attempt + 1 + k = attempt + (k + 1) := by omega
    rw [harith] at h2
    rw [runLoop_succ_retry cls attempt (k + 1) le (err attempt) (h attempt)]
    exact h2

/-- If the first `k` attempts classify as retryable and attempt `k` is
terminal with outcome `t`, a loop with more than `k` allowed iterations
stops at attempt `k` with outcome `t` after exactly `k + 1` attempts. -/
lemma runLoop_stops_at (cls : Nat → Sum Terminal NetworkError) (err : Nat → NetworkError) (t : Terminal) :
    ∀ (k remaining attempt : Nat) (le : Option NetworkError),
      (∀ i, i < k → cls (attempt + i) = Sum.inr (err (attempt + i))) →
      cls (attempt + k) = Sum.inl t → k < remaining →
      (runLoop cls attempt remaining le).outcome = t ∧
      (runLoop cls attempt remaining le).attempts = k + 1 := by
  intro k
  induction k with
  | zero =>
    intro remaining attempt le _ hterm hrem
    obtain ⟨r, rfl⟩ : ∃ r, remaining = r + 1 := ⟨remaining - 1, by omega⟩
    rw [Nat.add_zero] at hterm
    rw [runLoop_succ_terminal cls attempt r le t hterm]
    exact ⟨rfl, rfl⟩
  | succ k ih =>
    intro remaining attempt le hpre hterm hrem
    obtain ⟨r, rfl⟩ : ∃ r, remaining = r + 1 := ⟨remaining - 1, by omega⟩
    have h0 : cls attempt = Sum.inr (err attempt) := by
      have := hpre 0 (by omega)
      simpa using this
    have hpre2 : ∀ i, i < k → cls (attempt + 1 + i) = Sum.inr (err (attempt + 1 + i)) := by
      intro i hi
      have := hpre (i + 1) (by omega)
      have harith : attempt + (i + 1) = attempt + 1 + i := by omega
      rwa [harith] at this
    have hterm2 : cls (attempt + 1 + k) = Sum.inl t := by
      have harith : attempt + (k + 1) = attempt + 1 + k := by omega
      rwa [harith] at hterm
    obtain ⟨ho, ha⟩ := ih r (attempt + 1) (some (err attempt)) hpre2 hterm2 (by omega)
    rw [runLoop_succ_retry cls attempt r le (err attempt) h0]
    exact ⟨ho, by simp [ha]⟩

/-- First-attempt terminal outcome: one attempt, no backoff sleep. -/
lemma runLoop_first_terminal (cls : Nat → Sum Terminal NetworkError) (t : Terminal)
    (h : cls 0 = Sum.inl t) (k : Nat) (le : Option NetworkError) :
    runLoop cls 0 (k + 1) le = { outcome := t, attempts := 1, sleeps := [] } := by
  rw [runLoop_succ_terminal cls 0 k le t h]
  simp

/-- Starting from a positive attempt counter, the backoff trace is the
exponential schedule shifted by the starting attempt. -/
lemma runLoop_sleeps_pos (cls : Nat → Sum Terminal NetworkError) :
    ∀ (k attempt : Nat) (le : Option NetworkError), 1 ≤ attempt →
      (runLoop cls attempt k le).sleeps =
        (List.range (runLoop cls attempt k le).attempts).map
          (fun j => INITIAL_BACKOFF_MS * 2 ^ (attempt - 1 + j)) := by
  intro k
  induction k with
  | zero =>
    intro attempt le _
    simp [runLoop]
  | succ k ih =>
    intro attempt le ha
    have hne : ¬ attempt = 0 := by omega
    cases hc : cls attempt with
    | inl t =>
      rw [runLoop_succ_terminal cls attempt k le t hc]
      simp [hne, List.range_succ]
    | inr e =>
      have h2 := ih (attempt + 1) (some e) (by omega)
      rw [runLoop_succ_retry cls attempt k le e hc]
      simp only [if_neg hne, List.singleton_append]
      rw [List.range_succ_eq_map, List.map_cons, List.map_map, h2]
      refine List.cons_eq_cons.mpr ⟨by simp, ?_⟩
      apply List.map_congr_left
      intro j _
      simp only [Function.comp_apply]
      have harith : attempt + 1 - 1 + j = attempt - 1 + (j + 1) := by omega
      rw [harith]

/-- The full backoff trace of a loop started at attempt 0: one delay per
retry, the `j`-th (0-based) being `INITIAL_BACKOFF_MS * 2 ^ j`. -/
lemma runLoop_sleeps_start (cls : Nat → Sum Terminal NetworkError) (k : Nat) (le : Option NetworkError) :
    (runLoop cls 0 k le).sleeps =
      (List.range ((runLoop cls 0 k le).attempts - 1)).map
        (fun j => INITIAL_BACKOFF_MS * 2 ^ j) := by
  cases k with
  | zero => simp [runLoop]
  | succ k =>
    cases hc : cls 0 with
    | inl t =>
      rw [runLoop_succ_terminal cls 0 k le t hc]
      simp
    | inr e =>
      have h2 := runLoop_sleeps_pos cls k 1 (some e) (Nat.le_refl 1)
      rw [runLoop_succ_retry cls 0 k le e hc]
      simp only [if_pos rfl, List.nil_append, Nat.add_sub_cancel]
      rw [h2]
      apply List.map_congr_left
      intro j _
      simp

/-- The constructor's trailing-slash strip removes exactly the appended
slashes from a base URL that does not itself end in a slash. -/
lemma stripTrailingSlashes_append_slashes (origin : String) (k : Nat)
    (h : origin.data.getLast? ≠ some '/') :
    stripTrailingSlashes (origin ++ String.mk (List.replicate k '/')) = origin := by
  unfold stripTrailingSlashes
  have hdata : (origin ++ String.mk (List.replicate k '/')).data =
      origin.data ++ List.replicate k '/' := by
    simp [String.data_append]
  rw [hdata, List.reverse_append, List.reverse_replicate]
  have hrep : ∀ (m : Nat) (l : List Char),
      List.dropWhile (fun c => c == '/') (List.replicate m '/' ++ l) =
        List.dropWhile (fun c => c == '/') l := by
    intro m
    induction m with
    | zero => intro l; simp
    | succ m ih => intro l; simp [List.replicate_succ, List.dropWhile_cons, ih]
  rw [hrep]
  have hds : List.dropWhile (fun c => c == '/') origin.data.reverse = origin.data.reverse := by
    cases hrev : origin.data.reverse with
    | nil => simp
    | cons c t =>
      have hc : ¬ c = '/' := by
        intro hcEq
        apply h
        rw [← List.head?_reverse, hrev, hcEq]
        rfl
      simp [List.dropWhile_cons, hc]
  rw [hds, List.reverse_reverse]

/-! ## Claim theorems -/

/-- C2: for every `maxRetries = n ≥ 0`, an invocation of `_request` in
which every attempt's response has HTTP status 503 makes exactly `n + 1`
attempts (one initial attempt plus `n` retries) and then throws a
`NetworkError` whose `statusCode` is 503. -/
theorem c2_all_503_attempts_and_error (n : Nat) (c : AgentScoreClient)
    (hc : c.maxRetries = (n : Int)) (method path : String) (body : Option JValue)
    (fetches : Nat → FetchOutcome)
    (h503 : ∀ i, ∃ res, fetches i = FetchOutcome.response res ∧ res.status = 503) :
    (_request c method path body fetches).attempts = n + 1 ∧
    ∃ e, (_request c method path body fetches).outcome = RequestOutcome.network e ∧
      e.statusCode = some 503 := by
  have hcls : ∀ i, ∃ e, classifyRequest c method path (fetches i) = Sum.inr e ∧
      e.statusCode = some 503 := by
    intro i
    obtain ⟨res, hf, hs⟩ := h503 i
    refine ⟨{ message := "Server error " ++ toString res.status ++ ": "
                ++ jsOrElse (res.textBody.getD "") res.statusText,
              statusCode := some res.status }, ?_, by rw [hs]⟩
    rw [hf]
    exact classifyRequest_5xx c method path res (by omega) (by omega)
  have hb : attemptBudget c.maxRetries = n + 1 := by rw [hc]; exact attemptBudget_ofNat n
  obtain ⟨ha, e, he, hQ⟩ := runLoop_allRetry_pred
    (fun i => classifyRequest c method path (fetches i)) (fun e => e.statusCode = some 503)
    hcls n 0 none
  refine ⟨?_, e, ?_, hQ⟩
  · rw [_request_attempts_def, hb]
    exact ha
  · exact _request_outcome_network c method path body fetches e (by rw [hb]; exact he)

/-- C3: when every attempt of `_request` or `_requestText` classifies as
retryable (recorded as `err i` for attempt `i`), retry exhaustion throws
exactly the error recorded for the last attempt `n`; that error carries
no `statusCode` when the last attempt failed at the transport level and
carries the HTTP status when it was a 5xx response.  When `maxRetries`
is negative the loop body never runs and the generic
"Request failed after retries" `NetworkError` is thrown. -/
theorem c3_exhaustion_surfaces_last_error (c cNeg : AgentScoreClient) (n : Nat)
    (hc : c.maxRetries = (n : Int)) (hneg : cNeg.maxRetries < 0)
    (method path : String) (body : Option JValue) (fetches : Nat → FetchOutcome)
    (err : Nat → NetworkError)
    (herr : ∀ i, classifyRequest c method path (fetches i) = Sum.inr (err i))
    (herrT : ∀ i, classifyText c method path (fetches i) = Sum.inr (err i)) :
    (_request c method path body fetches).outcome = RequestOutcome.network (err n) ∧
    (_requestText c method path fetches).outcome = RequestTextOutcome.network (err n) ∧
    (∀ m, fetches n = FetchOutcome.transport m → (err n).statusCode = none) ∧
    (∀ res, fetches n = FetchOutcome.response res → 500 ≤ res.status →
      (err n).statusCode = some res.status) ∧
    (_request cNeg method path body fetches).outcome =
      RequestOutcome.network { message := "Request failed after retries", statusCode := none } ∧
    (_requestText cNeg method path fetches).outcome =
      RequestTextOutcome.network { message := "Request failed after retries", statusCode := none } := by
  have hb : attemptBudget c.maxRetries = n + 1 := by rw [hc]; exact attemptBudget_ofNat n
  have hbNeg : attemptBudget cNeg.maxRetries = 0 := attemptBudget_neg _ hneg
  refine ⟨?_, ?_, ?_, ?_, ?_, ?_⟩
  · apply _request_outcome_network
    rw [hb]
    simpa using runLoop_allRetry_last
      (fun i => classifyRequest c method path (fetches i)) err herr n 0 none
  · apply _requestText_outcome_network
    rw [hb]
    simpa using runLoop_allRetry_last
      (fun i => classifyText c method path (fetches i)) err herrT n 0 none
  · intro m hm
    have h1 := herr n
    rw [hm, (classify_transport c method path m).1] at h1
    rw [← Sum.inr.inj h1]
    simp [transportError]
  · intro res hres h500
    have h1 := herr n
    rw [hres, classifyRequest_5xx c method path res (by omega) h500] at h1
    rw [← Sum.inr.inj h1]
  · apply _request_outcome_network
    rw [hbNeg]
    simp [runLoop]
  · apply _requestText_outcome_network
    rw [hbNeg]
    simp [runLoop]

/-- C5: for every invocation of `_request` or `_requestText`, the
backoff delays form the schedule `INITIAL_BACKOFF_MS * 2 ^ (k - 1)` for
retry number `k ≥ 1` (so 1000 ms, 2000 ms, 4000 ms, …), with one delay
per retry and no delay before the initial attempt: the sleep trace is
exactly the first `attempts - 1` entries of the doubling schedule. -/
theorem c5_backoff_schedule (c : AgentScoreClient) (method path : String)
    (body : Option JValue) (fetches : Nat → FetchOutcome) :
    INITIAL_BACKOFF_MS = 1000 ∧
    (_request c method path body fetches).sleeps =
      (List.range ((_request c method path body fetches).attempts - 1)).map
        (fun k => INITIAL_BACKOFF_MS * 2 ^ k) ∧
    (_requestText c method path fetches).sleeps =
      (List.range ((_requestText c method path fetches).attempts - 1)).map
        (fun k => INITIAL_BACKOFF_MS * 2 ^ k) := by
  refine ⟨rfl, ?_, ?_⟩
  · rw [_request_sleeps_def, _request_attempts_def]
    exact runLoop_sleeps_start _ _ _
  · rw [_requestText_sleeps_def, _requestText_attempts_def]
    exact runLoop_sleeps_start _ _ _

/-- C1 counterexample: both variants receive the same 402 response on
their first attempt, yet `_request` throws a `PaymentRequiredError`
while `_requestText` throws a `NetworkError` with status code 402 — the
two variants do not apply identical response classification at status
402, and the text variant never produces a payment-required error. -/
theorem c1_counterexample :
    (_requestText clientEx "GET" "/v1/badge/w.svg" (fun _ => FetchOutcome.response res402Ex)).outcome =
      RequestTextOutcome.network { message := "HTTP 402: payment required", statusCode := some 402 } ∧
    (_request clientEx "GET" "/v1/badge/w.svg" none (fun _ => FetchOutcome.response res402Ex)).outcome =
      RequestOutcome.payment (mkPaymentRequiredError [acceptEx] rawBodyEx) :=
  ⟨rfl, rfl⟩

/-- C1 (amended): a 402 response is terminal for both variants — if the
first `k` attempts are retryable and attempt `k` returns status 402,
both variants stop after exactly `k + 1` attempts — but the variants
classify it differently: `_request` throws the `PaymentRequiredError`
built from the parsed body's `accepts` list, while `_requestText`,
which has no 402 branch, throws a `NetworkError` with status code 402
through its generic 4xx case.  As in C4, the 402 body is restricted to
one that fails to parse or parses to an object: on a body parsing to
JSON `null` the source's non-optional `raw.accepts` access would throw
a `TypeError` instead. -/
theorem c1_amended_402_classification (c : AgentScoreClient) (n k : Nat)
    (hc : c.maxRetries = (n : Int)) (hk : k ≤ n)
    (method path : String) (body : Option JValue) (fetches : Nat → FetchOutcome)
    (err : Nat → NetworkError)
    (hpre : ∀ i, i < k → classifyRequest c method path (fetches i) = Sum.inr (err i))
    (hpreT : ∀ i, i < k → classifyText c method path (fetches i) = Sum.inr (err i))
    (res : ResponseModel) (hres : fetches k = FetchOutcome.response res) (h402 : res.status = 402)
    (hbody : res.jsonBody = none ∨ ∃ fields, res.jsonBody = some (JValue.obj fields)) :
    (_request c method path body fetches).attempts = k + 1 ∧
    (_request c method path body fetches).outcome =
      RequestOutcome.payment (mkPaymentRequiredError
        (extractAccepts (res.jsonBody.getD (JValue.obj []))) (res.jsonBody.getD (JValue.obj []))) ∧
    (_requestText c method path fetches).attempts = k + 1 ∧
    (_requestText c method path fetches).outcome =
      RequestTextOutcome.network
        { message := "HTTP 402: " ++ jsOrElse (res.textBody.getD "") res.statusText,
          statusCode := some 402 } := by
  have hb : attemptBudget c.maxRetries = n + 1 := by rw [hc]; exact attemptBudget_ofNat n
  have hpre2 : ∀ i, i < k →
      (fun attempt => classifyRequest c method path (fetches attempt)) (0 + i) =
        Sum.inr (err (0 + i)) := by
    intro i hi
    simpa using hpre i hi
  have hterm2 : (fun attempt => classifyRequest c method path (fetches attempt)) (0 + k) =
      Sum.inl (Terminal.payment (mkPaymentRequiredError
        (extractAccepts (res.jsonBody.getD (JValue.obj []))) (res.jsonBody.getD (JValue.obj [])))) := by
    simp only [Nat.zero_add]
    rw [hres]
    exact classifyRequest_402 c method path res h402
  obtain ⟨ho, ha⟩ := runLoop_stops_at
    (fun attempt => classifyRequest c method path (fetches attempt)) err _ k
    (attemptBudget c.maxRetries) 0 none hpre2 hterm2 (by rw [hb]; omega)
  have hpre2T : ∀ i, i < k →
      (fun attempt => classifyText c method path (fetches attempt)) (0 + i) =
        Sum.inr (err (0 + i)) := by
    intro i hi
    simpa using hpreT i hi
  have htermT : (fun attempt => classifyText c method path (fetches attempt)) (0 + k) =
      Sum.inl (Terminal.network
        { message := "HTTP " ++ toString res.status ++ ": " ++ jsOrElse (res.textBody.getD "") res.statusText,
          statusCode := some res.status }) := by
    simp only [Nat.zero_add]
    rw [hres]
    exact classifyText_4xx c method path res (by omega) (by omega)
  obtain ⟨hoT, haT⟩ := runLoop_stops_at
    (fun attempt => classifyText c method path (fetches attempt)) err _ k
    (attemptBudget c.maxRetries) 0 none hpre2T htermT (by rw [hb]; omega)
  refine ⟨?_, ?_, ?_, ?_⟩
  · rw [_request_attempts_def]
    exact ha
  · exact _request_outcome_payment c method path body fetches _ ho
  · rw [_requestText_attempts_def]
    exact haT
  · have h5 := _requestText_outcome_network c method path fetches _ hoT
    rw [h402] at h5
    exact h5

/-- C1 witness: the amended theorem applied with `k = 0` to a concrete
402 response received on the first attempt of both variants. -/
theorem c1_amended_402_classification_witness :
    (_request clientEx "GET" "/v1/score/full" none (fun _ => FetchOutcome.response res402Ex)).attempts = 1 ∧
    (_request clientEx "GET" "/v1/score/full" none (fun _ => FetchOutcome.response res402Ex)).outcome =
      RequestOutcome.payment (mkPaymentRequiredError
        (extractAccepts (res402Ex.jsonBody.getD (JValue.obj []))) (res402Ex.jsonBody.getD (JValue.obj []))) ∧
    (_requestText clientEx "GET" "/v1/score/full" (fun _ => FetchOutcome.response res402Ex)).attempts = 1 ∧
    (_requestText clientEx "GET" "/v1/score/full" (fun _ => FetchOutcome.response res402Ex)).outcome =
      RequestTextOutcome.network
        { message := "HTTP 402: " ++ jsOrElse (res402Ex.textBody.getD "") res402Ex.statusText,
          statusCode := some 402 } :=
  c1_amended_402_classification clientEx 3 0 rfl (by omega) "GET" "/v1/score/full" none
    (fun _ => FetchOutcome.response res402Ex) (fun _ => { message := "", statusCode := none })
    (fun i hi => absurd hi (by omega)) (fun i hi => absurd hi (by omega)) res402Ex rfl rfl
    (Or.inr ⟨_, rfl⟩)

/-- C2 witness: `maxRetries = 3` and a constant 503 server give 4
attempts and a final 503 network error. -/
theorem c2_all_503_attempts_and_error_witness :
    (_request clientEx "GET" "/health" none (fun _ => FetchOutcome.response res503Ex)).attempts = 4 ∧
    (_request clientEx "GET" "/health" none (fun _ => FetchOutcome.response res503Ex)).outcome =
      RequestOutcome.network { message := "Server error 503: upstream down", statusCode := some 503 } := by
  obtain ⟨ha, _⟩ := c2_all_503_attempts_and_error 3 clientEx rfl "GET" "/health" none
    (fun _ => FetchOutcome.response res503Ex) (fun _ => ⟨res503Ex, rfl, rfl⟩)
  exact ⟨ha, rfl⟩

/-- C3 witness: a persistent transport failure surfaces the last
recorded transport error (no status code) on both variants, and a
negative `maxRetries` yields the generic error. -/
theorem c3_exhaustion_surfaces_last_error_witness :
    (_request clientEx "GET" "/health" none (fun _ => FetchOutcome.transport (some "socket hang up"))).outcome =
      RequestOutcome.network (transportError clientEx "GET" "/health" (some "socket hang up")) ∧
    (_requestText clientEx "GET" "/health" (fun _ => FetchOutcome.transport (some "socket hang up"))).outcome =
      RequestTextOutcome.network (transportError clientEx "GET" "/health" (some "socket hang up")) ∧
    (transportError clientEx "GET" "/health" (some "socket hang up")).statusCode = none ∧
    (_request clientNegEx "GET" "/health" none (fun _ => FetchOutcome.transport (some "socket hang up"))).outcome =
      RequestOutcome.network { message := "Request failed after retries", statusCode := none } ∧
    (_requestText clientNegEx "GET" "/health" (fun _ => FetchOutcome.transport (some "socket hang up"))).outcome =
      RequestTextOutcome.network { message := "Request failed after retries", statusCode := none } := by
  obtain ⟨h1, h2, h3, _, h5, h6⟩ := c3_exhaustion_surfaces_last_error clientEx clientNegEx 3 rfl
    (by decide) "GET" "/health" none (fun _ => FetchOutcome.transport (some "socket hang up"))
    (fun _ => transportError clientEx "GET" "/health" (some "socket hang up"))
    (fun _ => rfl) (fun _ => rfl)
  exact ⟨h1, h2, h3 (some "socket hang up") rfl, h5, h6⟩

/-- C4: a first attempt with status 402 makes exactly one attempt with
no backoff, and the thrown `PaymentRequiredError` carries the parsed
body's `accepts` array when it is an array, the empty list when the
field is absent or not an array, and the empty-object raw body when the
body parse failed. -/
theorem c4_first_attempt_402 (c : AgentScoreClient) (n : Nat) (hc : c.maxRetries = (n : Int))
    (method path : String) (body : Option JValue) (fetches : Nat → FetchOutcome)
    (res : ResponseModel) (h0 : fetches 0 = FetchOutcome.response res) (h402 : res.status = 402)
    (hbody : res.jsonBody = none ∨ ∃ fields, res.jsonBody = some (JValue.obj fields)) :
    (_request c method path body fetches).attempts = 1 ∧
    (_request c method path body fetches).sleeps = [] ∧
    ∃ e, (_request c method path body fetches).outcome = RequestOutcome.payment e ∧
      e.accepts = extractAccepts (res.jsonBody.getD (JValue.obj [])) ∧
      e.rawBody = res.jsonBody.getD (JValue.obj []) ∧
      (∀ elems, jsGetField (res.jsonBody.getD (JValue.obj [])) "accepts" = some (JValue.arr elems) →
        e.accepts = elems) ∧
      (∀ v, jsGetField (res.jsonBody.getD (JValue.obj [])) "accepts" = some v →
        (∀ elems, v ≠ JValue.arr elems) → e.accepts = []) ∧
      (jsGetField (res.jsonBody.getD (JValue.obj [])) "accepts" = none → e.accepts = []) ∧
      (res.jsonBody = none → e.rawBody = JValue.obj []) := by
  have hb : attemptBudget c.maxRetries = n + 1 := by rw [hc]; exact attemptBudget_ofNat n
  have hcls : (fun attempt => classifyRequest c method path (fetches attempt)) 0 =
      Sum.inl (Terminal.payment (mkPaymentRequiredError
        (extractAccepts (res.jsonBody.getD (JValue.obj []))) (res.jsonBody.getD (JValue.obj [])))) := by
    show classifyRequest c method path (fetches 0) = _
    rw [h0]
    exact classifyRequest_402 c method path res h402
  have hloop := runLoop_first_terminal
    (fun attempt => classifyRequest c method path (fetches attempt)) _ hcls n none
  refine ⟨?_, ?_,
    mkPaymentRequiredError (extractAccepts (res.jsonBody.getD (JValue.obj [])))
      (res.jsonBody.getD (JValue.obj [])), ?_, rfl, rfl, ?_, ?_, ?_, ?_⟩
  · rw [_request_attempts_def, hb, hloop]
  · rw [_request_sleeps_def, hb, hloop]
  · apply _request_outcome_payment
    rw [hb, hloop]
  · intro elems hel
    simp [extractAccepts, mkPaymentRequiredError, hel]
  · intro v hv hne
    cases v with
    | arr elems => exact absurd rfl (hne elems)
    | null => simp [extractAccepts, mkPaymentRequiredError, hv]
    | bool b => simp [extractAccepts, mkPaymentRequiredError, hv]
    | num m => simp [extractAccepts, mkPaymentRequiredError, hv]
    | str s => simp [extractAccepts, mkPaymentRequiredError, hv]
    | obj fields => simp [extractAccepts, mkPaymentRequiredError, hv]
  · intro hnone
    simp [extractAccepts, mkPaymentRequiredError, hnone]
  · intro hnone
    simp [mkPaymentRequiredError, hnone]

/-- C4 witness: the theorem applied to a concrete 402 response whose
body carries a one-element `accepts` array. -/
theorem c4_first_attempt_402_witness :
    (_request clientEx "GET" "/v1/score/full" none (fun _ => FetchOutcome.response res402Ex)).attempts = 1 ∧
    (_request clientEx "GET" "/v1/score/full" none (fun _ => FetchOutcome.response res402Ex)).sleeps = [] ∧
    (_request clientEx "GET" "/v1/score/full" none (fun _ => FetchOutcome.response res402Ex)).outcome =
      RequestOutcome.payment (mkPaymentRequiredError [acceptEx] rawBodyEx) := by
  obtain ⟨ha, hs, _⟩ := c4_first_attempt_402 clientEx 3 rfl "GET" "/v1/score/full" none
    (fun _ => FetchOutcome.response res402Ex) res402Ex rfl rfl (Or.inr ⟨_, rfl⟩)
  exact ⟨ha, hs, rfl⟩

/-- C6 counterexample: for the recommendation string "toString" — not
one of the four known keys — the object-literal lookup returns the
member inherited from `Object.prototype`, which is not nullish, so the
fallback never fires: the reason is the inherited member and not
"unknown_recommendation", contradicting the claim's every-other-string
clause (the decision is still not approved). -/
theorem c6_counterexample :
    (gateTransaction (scoreEx "toString")).reason ≠ GateReasonValue.str "unknown_recommendation" ∧
    (gateTransaction (scoreEx "toString")).reason = GateReasonValue.inheritedFn "toString" ∧
    (gateTransaction (scoreEx "toString")).approved = false :=
  ⟨by decide, rfl, rfl⟩

/-- C6 (amended): `shouldTransact` approves exactly the `"proceed"`
recommendation; `gateTransaction` maps `"proceed"` and
`"proceed_with_caution"` to approved decisions with those reasons,
`"deny"` and `"block"` to a non-approved `"blocked"`, and every other
recommendation string to a non-approved decision — with reason
`"unknown_recommendation"`, except when the string names an
`Object.prototype` member, where the lookup yields the inherited
non-string member and the nullish fallback never fires. -/
theorem c6_amended_gating_decisions (d : BasicScoreResponse) :
    (shouldTransact d = true ↔ d.recommendation = "proceed") ∧
    gateTransaction d =
      { approved := (d.recommendation == "proceed" || d.recommendation == "proceed_with_caution"),
        reason :=
          if d.recommendation = "proceed" then GateReasonValue.str "proceed"
          else if d.recommendation = "proceed_with_caution" then GateReasonValue.str "proceed_with_caution"
          else if d.recommendation = "deny" then GateReasonValue.str "blocked"
          else if d.recommendation = "block" then GateReasonValue.str "blocked"
          else if OBJECT_PROTOTYPE_KEYS.contains d.recommendation then
            GateReasonValue.inheritedFn d.recommendation
          else GateReasonValue.str "unknown_recommendation",
        score := d.score,
        recommendation := d.recommendation,
        wallet := d.wallet } := by
  constructor
  · simp [shouldTransact]
  · by_cases h1 : d.recommendation = "proceed"
    · simp [gateTransaction, jsRecordGet, KNOWN_REASONS, GateReasonValue.strictEqStr, h1]
    · by_cases h2 : d.recommendation = "proceed_with_caution"
      · simp [gateTransaction, jsRecordGet, KNOWN_REASONS, GateReasonValue.strictEqStr, h1, h2]
      · by_cases h3 : d.recommendation = "deny"
        · simp [gateTransaction, jsRecordGet, KNOWN_REASONS, GateReasonValue.strictEqStr, h1, h2, h3]
        · by_cases h4 : d.recommendation = "block"
          · simp [gateTransaction, jsRecordGet, KNOWN_REASONS, GateReasonValue.strictEqStr,
              h1, h2, h3, h4]
          · have e1 : ("proceed" == d.recommendation) = false :=
              beq_eq_false_iff_ne.mpr (fun h => h1 h.symm)
            have e2 : ("proceed_with_caution" == d.recommendation) = false :=
              beq_eq_false_iff_ne.mpr (fun h => h2 h.symm)
            have e3 : ("deny" == d.recommendation) = false :=
              beq_eq_false_iff_ne.mpr (fun h => h3 h.symm)
            have e4 : ("block" == d.recommendation) = false :=
              beq_eq_false_iff_ne.mpr (fun h => h4 h.symm)
            have f1 : (d.recommendation == "proceed") = false := beq_eq_false_iff_ne.mpr h1
            have f2 : (d.recommendation == "proceed_with_caution") = false :=
              beq_eq_false_iff_ne.mpr h2
            have g1 : ("unknown_recommendation" == "proceed") = false := rfl
            have g2 : ("unknown_recommendation" == "proceed_with_caution") = false := rfl
            by_cases h5 : d.recommendation ∈ OBJECT_PROTOTYPE_KEYS
            · simp [gateTransaction, jsRecordGet, KNOWN_REASONS, GateReasonValue.strictEqStr,
                List.find?, e1, e2, e3, e4, f1, f2, g1, g2, h1, h2, h3, h4, h5]
            · simp [gateTransaction, jsRecordGet, KNOWN_REASONS, GateReasonValue.strictEqStr,
                List.find?, e1, e2, e3, e4, f1, f2, g1, g2, h1, h2, h3, h4, h5]

/-- C7: a transport-level failure records a retryable `NetworkError`
with no status code in both variants, with the timeout message exactly
when the thrown message contains "abort" (the per-attempt timeout abort)
and the generic network-error message otherwise. -/
theorem c7_transport_error_messages (c : AgentScoreClient) (method path : String)
    (errMessage : Option String) :
    classifyRequest c method path (FetchOutcome.transport errMessage) =
      Sum.inr
        { message :=
            if jsIncludes (errMessage.getD "Unknown network error") "abort" then
              "Request timed out after " ++ toString c.timeoutMs ++ "ms: " ++ method ++ " " ++ path
            else
              "Network error: " ++ errMessage.getD "Unknown network error",
          statusCode := none } ∧
    classifyText c method path (FetchOutcome.transport errMessage) =
      Sum.inr
        { message :=
            if jsIncludes (errMessage.getD "Unknown network error") "abort" then
              "Request timed out after " ++ toString c.timeoutMs ++ "ms: " ++ method ++ " " ++ path
            else
              "Network error: " ++ errMessage.getD "Unknown network error",
          statusCode := none } :=
  ⟨rfl, rfl⟩

/-- C8: constructing a client from a base URL with trailing slashes
strips them all, so any request URL is the stripped origin, one slash,
and the rest of the path — no double slash at the junction. -/
theorem c8_url_single_slash (origin rest : String) (k : Nat) (hk : 1 ≤ k)
    (horigin : origin.data.getLast? ≠ some '/') (hrest : rest.data.head? ≠ some '/')
    (timeoutMs : Option Nat) (maxRetries : Option Int)
    (method : String) (body : Option JValue) (fetches : Nat → FetchOutcome) :
    (AgentScoreClient.ofOptions
      { baseUrl := some (origin ++ String.mk (List.replicate k '/')),
        timeoutMs := timeoutMs, maxRetries := maxRetries }).baseUrl = origin ∧
    (_request (AgentScoreClient.ofOptions
      { baseUrl := some (origin ++ String.mk (List.replicate k '/')),
        timeoutMs := timeoutMs, maxRetries := maxRetries }) method ("/" ++ rest) body fetches).url =
      origin ++ "/" ++ rest ∧
    (_requestText (AgentScoreClient.ofOptions
      { baseUrl := some (origin ++ String.mk (List.replicate k '/')),
        timeoutMs := timeoutMs, maxRetries := maxRetries }) method ("/" ++ rest) fetches).url =
      origin ++ "/" ++ rest := by
  have hbase : (AgentScoreClient.ofOptions
      { baseUrl := some (origin ++ String.mk (List.replicate k '/')),
        timeoutMs := timeoutMs, maxRetries := maxRetries }).baseUrl = origin := by
    simp only [AgentScoreClient.ofOptions, Option.getD]
    exact stripTrailingSlashes_append_slashes origin k horigin
  refine ⟨hbase, ?_, ?_⟩
  · show (AgentScoreClient.ofOptions _).baseUrl ++ ("/" ++ rest) = origin ++ "/" ++ rest
    rw [hbase, String.append_assoc]
  · show (AgentScoreClient.ofOptions _).baseUrl ++ ("/" ++ rest) = origin ++ "/" ++ rest
    rw [hbase, String.append_assoc]

/-- C8 witness: two trailing slashes are stripped and the request URL
has a single slash before the path. -/
theorem c8_url_single_slash_witness :
    (AgentScoreClient.ofOptions
      { baseUrl := some ("https://a.example" ++ String.mk (List.replicate 2 '/')),
        timeoutMs := some 10000, maxRetries := some 3 }).baseUrl = "https://a.example" ∧
    (_request (AgentScoreClient.ofOptions
      { baseUrl := some ("https://a.example" ++ String.mk (List.replicate 2 '/')),
        timeoutMs := some 10000, maxRetries := some 3 }) "GET" ("/" ++ "v1/leaderboard") none
      (fun _ => FetchOutcome.response res503Ex)).url = "https://a.example" ++ "/" ++ "v1/leaderboard" ∧
    (_requestText (AgentScoreClient.ofOptions
      { baseUrl := some ("https://a.example" ++ String.mk (List.replicate 2 '/')),
        timeoutMs := some 10000, maxRetries := some 3 }) "GET" ("/" ++ "v1/leaderboard")
      (fun _ => FetchOutcome.response res503Ex)).url = "https://a.example" ++ "/" ++ "v1/leaderboard" :=
  c8_url_single_slash "https://a.example" "v1/leaderboard" 2 (by omega) (by decide) (by decide)
    (some 10000) (some 3) "GET" none (fun _ => FetchOutcome.response res503Ex)

/-- C9: a constructed `PaymentRequiredError` has status code 402, keeps
the `accepts` list and raw body unchanged, and derives its message from
the first payment option's `maxAmountRequired` and `asset` — with
"unknown" for both fields when the accepts list is empty. -/
theorem c9_payment_error_construction (accepts : List JValue) (rawBody : JValue) :
    (mkPaymentRequiredError accepts rawBody).statusCode = 402 ∧
    (mkPaymentRequiredError accepts rawBody).accepts = accepts ∧
    (mkPaymentRequiredError accepts rawBody).rawBody = rawBody ∧
    (mkPaymentRequiredError accepts rawBody).message =
      "Payment required: " ++ jsFieldOrUnknown accepts "maxAmountRequired"
        ++ " " ++ jsFieldOrUnknown accepts "asset" ∧
    (accepts = [] →
      (mkPaymentRequiredError accepts rawBody).message = "Payment required: unknown unknown") ∧
    (∀ first tail amount asset, accepts = first :: tail →
      jsGetField first "maxAmountRequired" = some (JValue.str amount) →
      jsGetField first "asset" = some (JValue.str asset) →
      (mkPaymentRequiredError accepts rawBody).message =
        "Payment required: " ++ amount ++ " " ++ asset) := by
  refine ⟨rfl, rfl, rfl, rfl, ?_, ?_⟩
  · intro h
    subst h
    rfl
  · intro first tail amount asset hacc hamt hasset
    subst hacc
    simp [mkPaymentRequiredError, jsFieldOrUnknown, hamt, hasset, jsTemplate]

/-- C9 witness: the theorem applied to the empty accepts list and to a
concrete one-option list. -/
theorem c9_payment_error_construction_witness :
    (mkPaymentRequiredError [] JValue.null).message = "Payment required: unknown unknown" ∧
    (mkPaymentRequiredError [acceptEx] rawBodyEx).message =
      "Payment required: " ++ "1000" ++ " " ++ "USDC" :=
  ⟨(c9_payment_error_construction [] JValue.null).2.2.2.2.1 rfl,
   (c9_payment_error_construction [acceptEx] rawBodyEx).2.2.2.2.2 acceptEx [] "1000" "USDC" rfl rfl rfl⟩

/-- C10: the "unknown" fallback in the payment-required message applies
per field: a non-empty accepts list whose first entry lacks
`maxAmountRequired` (or lacks `asset`) renders "unknown" for the
missing field while using the present value of the other. -/
theorem c10_per_field_unknown (first first2 : JValue) (tail tail2 : List JValue)
    (rawBody rawBody2 : JValue) (amount asset : String)
    (h1 : jsGetField first "maxAmountRequired" = none)
    (h2 : jsGetField first "asset" = some (JValue.str asset))
    (h3 : jsGetField first2 "maxAmountRequired" = some (JValue.str amount))
    (h4 : jsGetField first2 "asset" = none) :
    (mkPaymentRequiredError (first :: tail) rawBody).message =
      "Payment required: unknown " ++ asset ∧
    (mkPaymentRequiredError (first2 :: tail2) rawBody2).message =
      "Payment required: " ++ amount ++ " unknown" := by
  constructor
  · have hmsg : (mkPaymentRequiredError (first :: tail) rawBody).message =
        "Payment required: " ++ "unknown" ++ " " ++ asset := by
      simp [mkPaymentRequiredError, jsFieldOrUnknown, h1, h2, jsTemplate]
    rw [hmsg]
    rw [show ("Payment required: " ++ "unknown" ++ " " : String) = "Payment required: unknown " from rfl]
  · have hmsg : (mkPaymentRequiredError (first2 :: tail2) rawBody2).message =
        "Payment required: " ++ amount ++ " " ++ "unknown" := by
      simp [mkPaymentRequiredError, jsFieldOrUnknown, h3, h4, jsTemplate]
    rw [hmsg, String.append_assoc]
    rw [show (" " ++ "unknown" : String) = " unknown" from rfl]

/-- C10 witness: a first entry with asset "USDC" and no
`maxAmountRequired` yields "Payment required: unknown USDC", and the
symmetric case yields "Payment required: 1000 unknown". -/
theorem c10_per_field_unknown_witness :
    (mkPaymentRequiredError [JValue.obj [("asset", JValue.str "USDC")]] JValue.null).message =
      "Payment required: unknown USDC" ∧
    (mkPaymentRequiredError [JValue.obj [("maxAmountRequired", JValue.str "1000")]] JValue.null).message =
      "Payment required: 1000 unknown" := by
  obtain ⟨hA, hB⟩ := c10_per_field_unknown (JValue.obj [("asset", JValue.str "USDC")])
    (JValue.obj [("maxAmountRequired", JValue.str "1000")]) [] [] JValue.null JValue.null
    "1000" "USDC" rfl rfl rfl rfl
  exact ⟨hA.trans (by rfl), hB.trans (by rfl)⟩

end AgentScore
